import Mathlib

/-!
Shallow embedding of `pkg/platform/controller/machine/machine_controller.go`
(the machine reconciliation controller of the tke platform).

External collaborators (lister/cache, provisioning provider, remote store,
deleter, cluster client) are modelled as explicit outcome parameters; the
controller's own control flow is translated function by function from the Go
source. Machine phases and condition statuses are Go string types and are kept
as strings here.
-/

namespace Tke

/-- Go constant `platformv1.MachineInitializing`. -/
def MachineInitializing : String := "Initializing"

/-- Go constant `platformv1.MachineRunning`. -/
def MachineRunning : String := "Running"

/-- Go constant `platformv1.MachineFailed`. -/
def MachineFailed : String := "Failed"

/-- Go constant `platformv1.MachineTerminating`. -/
def MachineTerminating : String := "Terminating"

/-- Go constant `platformv1.ConditionTrue`. -/
def ConditionTrue : String := "True"

/-- Go constant `platformv1.ConditionFalse`. -/
def ConditionFalse : String := "False"

/-- Go constant `conditionTypeHealthCheck` (machine_controller.go line 51). -/
def conditionTypeHealthCheck : String := "HealthCheck"

/-- Go constant `failedHealthCheckReason` (machine_controller.go line 52). -/
def failedHealthCheckReason : String := "FailedHealthCheck"

/-- One entry of `Machine.Status.Conditions` (`platformv1.MachineCondition`).
The Go field `Type` is `condType` here (`Type` is reserved in Lean). -/
structure MachineCondition where
  condType : String
  status : String
  reason : String
  message : String
deriving DecidableEq, Repr

/-- The fields of `platformv1.MachineSpec` the controller reads (`Type`,
`ClusterName`, `IP`); the Go field `Type` is `specType` here. -/
structure MachineSpec where
  specType : String
  clusterName : String
  ip : String
deriving DecidableEq, Repr

/-- The fields of `platformv1.MachineStatus` the controller reads or writes. -/
structure MachineStatus where
  phase : String
  conditions : List MachineCondition
deriving DecidableEq, Repr

/-- A `platformv1.Machine`: identity plus spec and status. -/
structure Machine where
  name : String
  spec : MachineSpec
  status : MachineStatus
deriving DecidableEq, Repr

/-- Replace the first condition with the same type, else append. -/
def setConditionList : List MachineCondition → MachineCondition → List MachineCondition
  | [], c => [c]
  | c0 :: rest, c =>
    if c0.condType = c.condType then c :: rest else c0 :: setConditionList rest c

/-- Modelled from the spec: `Machine.SetCondition` lives in the API types
package, which is not under the controller source; the spec says a condition
whose type already exists replaces the old one, otherwise it is inserted. -/
def Machine.setCondition (m : Machine) (c : MachineCondition) : Machine :=
  { m with status := { m.status with conditions := setConditionList m.status.conditions c } }

/-- Look up a condition by its type in a machine's condition set. -/
def Machine.getCondition (m : Machine) (t : String) : Option MachineCondition :=
  m.status.conditions.find? (fun c => c.condType == t)

/-- Outcome of the external probe made by `checkHealth`: building the
downstream cluster client (`util.BuildExternalClientSetWithName`) may fail,
the node fetch (`clientset.CoreV1().Nodes().Get(machine.Spec.IP)`) may fail,
or both succeed. -/
inductive ProbeOutcome where
  | buildErr (msg : String)
  | fetchErr (msg : String)
  | nodeOk
deriving DecidableEq, Repr

/-- Transcription of `checkHealth` (machine_controller.go lines 317-357).
Returns the post-probe machine (the in-memory state the patch is computed
from) and the error `checkHealth` returns; `getPatchBytesErr` and
`patchApplyErr` are the outcomes of the external patch computation and the
remote `Patch` call. -/
def checkHealth (machine : Machine) (probe : ProbeOutcome)
    (getPatchBytesErr patchApplyErr : Option String) : Machine × Option String :=
  let cond : MachineCondition :=
    { condType := conditionTypeHealthCheck, status := ConditionFalse,
      reason := "", message := "" }
  let step : Machine × MachineCondition :=
    match probe with
    | .buildErr msg =>
      ({ machine with status := { machine.status with phase := MachineFailed } },
       { cond with reason := failedHealthCheckReason, message := msg })
    | .fetchErr msg =>
      ({ machine with status := { machine.status with phase := MachineFailed } },
       { cond with reason := failedHealthCheckReason, message := msg })
    | .nodeOk =>
      ({ machine with status := { machine.status with phase := MachineRunning } },
       { cond with status := ConditionTrue })
  let patched := step.1.setCondition step.2
  match getPatchBytesErr with
  | some e => (patched, some ("GetPatchBytes error: " ++ e))
  | none =>
    match patchApplyErr with
    | some e => (patched, some ("update health status error: " ++ e))
    | none => (patched, none)

/-- Collaborator calls the reconciliation path can make, recorded in order. -/
inductive Action where
  | getProvider
  | getCluster
  | hookOnCreate
  | hookOnUpdate
  | remoteUpdate
  | deleterDelete (key : String)
  | ensureHealthCheck (key : String)
deriving DecidableEq, Repr

/-- Outcomes of the external collaborators a reconciliation pass touches:
`machineprovider.GetProvider`, `typesv1.GetClusterByName`, the provider's
`OnCreate`/`OnUpdate` hooks (which mutate the machine in place and return an
error), the remote store `Update`, and the deleter's `Delete`. -/
structure Env where
  getProviderErr : Option String
  getClusterErr : Option String
  onCreateHook : Machine → Machine × Option String
  onUpdateHook : Machine → Machine × Option String
  updateErr : Machine → Option String
  deleteErr : Option String

/-- Result of one reconciliation path: the collaborator calls made, the error
returned, the final in-memory machine, and whether the `Initializing` loop ran
out of fuel (the Go loop is unbounded; `fuelOut = true` marks divergence). -/
structure RunResult where
  trace : List Action
  err : Option String
  machine : Machine
  fuelOut : Bool
deriving Repr

/-- The `for machine.Status.Phase == platformv1.MachineInitializing` loop of
`onCreate` (machine_controller.go lines 244-251). Each iteration runs the
`OnCreate` hook and then the remote `Update`; as in the source, the hook's
error is immediately overwritten by the `Update` result (`err = provider.OnCreate(...)`
followed by `_, err = ...Update(...)`), so only an `Update` error exits with
an error. -/
def onCreateLoop (env : Env) : Nat → Machine → RunResult
  | 0, m =>
    if m.status.phase = MachineInitializing then
      { trace := [], err := none, machine := m, fuelOut := true }
    else
      { trace := [], err := none, machine := m, fuelOut := false }
  | Nat.succ n, m =>
    if m.status.phase = MachineInitializing then
      let hook := env.onCreateHook m
      match env.updateErr hook.1 with
      | some e =>
        { trace := [Action.hookOnCreate, Action.remoteUpdate],
          err := some e, machine := hook.1, fuelOut := false }
      | none =>
        let r := onCreateLoop env n hook.1
        { r with trace := Action.hookOnCreate :: Action.remoteUpdate :: r.trace }
    else
      { trace := [], err := none, machine := m, fuelOut := false }

/-- Transcription of `onCreate` (machine_controller.go lines 234-254). -/
def onCreate (env : Env) (fuel : Nat) (m : Machine) : RunResult :=
  match env.getProviderErr with
  | some e =>
    { trace := [Action.getProvider], err := some e, machine := m, fuelOut := false }
  | none =>
    match env.getClusterErr with
    | some e =>
      { trace := [Action.getProvider, Action.getCluster],
        err := some e, machine := m, fuelOut := false }
    | none =>
      let r := onCreateLoop env fuel m
      { r with trace := Action.getProvider :: Action.getCluster :: r.trace }

/-- Transcription of `onUpdate` (machine_controller.go lines 256-277):
`ensureStartHealthCheck` first, then provider resolution, cluster lookup,
the `OnUpdate` hook and the remote `Update` (whose result overwrites the
hook's error, as in the source). -/
def onUpdate (env : Env) (m : Machine) : RunResult :=
  match env.getProviderErr with
  | some e =>
    { trace := [Action.ensureHealthCheck m.name, Action.getProvider],
      err := some e, machine := m, fuelOut := false }
  | none =>
    match env.getClusterErr with
    | some e =>
      { trace := [Action.ensureHealthCheck m.name, Action.getProvider, Action.getCluster],
        err := some e, machine := m, fuelOut := false }
    | none =>
      let hook := env.onUpdateHook m
      match env.updateErr hook.1 with
      | some e =>
        { trace := [Action.ensureHealthCheck m.name, Action.getProvider,
                    Action.getCluster, Action.hookOnUpdate, Action.remoteUpdate],
          err := some e, machine := hook.1, fuelOut := false }
      | none =>
        { trace := [Action.ensureHealthCheck m.name, Action.getProvider,
                    Action.getCluster, Action.hookOnUpdate, Action.remoteUpdate],
          err := none, machine := hook.1, fuelOut := false }

/-- Transcription of `reconcile` (machine_controller.go lines 212-232): the
phase switch dispatching to `onCreate`, `onUpdate`, the deleter, or (for any
other phase) a logged no-op with the never-assigned `err` still nil. -/
def reconcile (env : Env) (fuel : Nat) (key : String) (machine : Machine) : RunResult :=
  if machine.status.phase = MachineInitializing then
    onCreate env fuel machine
  else if machine.status.phase = MachineRunning ∨ machine.status.phase = MachineFailed then
    onUpdate env machine
  else if machine.status.phase = MachineTerminating then
    { trace := [Action.deleterDelete key], err := env.deleteErr,
      machine := machine, fuelOut := false }
  else
    { trace := [], err := none, machine := machine, fuelOut := false }

/-- Result of `lister.Get`: the machine, a not-found error
(`apierrors.IsNotFound`), or any other error. -/
inductive LookupResult where
  | found (m : Machine)
  | notFound (msg : String)
  | otherErr (msg : String)
deriving Repr

/-- Split a character list on the slash separator, as `strings.Split` does. -/
def splitSlash : List Char → List (List Char)
  | [] => [[]]
  | c :: cs =>
    let rest := splitSlash cs
    if c = '/' then [] :: rest
    else
      match rest with
      | [] => [[c]]
      | p :: ps => (c :: p) :: ps

/-- Transcription of `cache.SplitMetaNamespaceKey`: at most one slash,
yielding (namespace, name). -/
def splitMetaNamespaceKey (key : String) : Option (String × String) :=
  match (splitSlash key.toList).map (fun l => String.mk l) with
  | [name] => some ("", name)
  | [ns, name] => some (ns, name)
  | _ => none

/-- Transcription of `syncMachine` (machine_controller.go lines 187-210):
split the key, look the machine up in the lister, and reconcile. In the
source the `IsNotFound` case only logs "Machine has been deleted"; the
subsequent `if err != nil` still returns the not-found error. -/
def syncMachine (env : Env) (fuel : Nat) (lister : String → LookupResult)
    (key : String) : List Action × Option String :=
  match splitMetaNamespaceKey key with
  | none => ([], some ("unexpected key format: " ++ key))
  | some p =>
    match lister p.2 with
    | .notFound msg => ([], some msg)
    | .otherErr msg => ([], some msg)
    | .found m =>
      let r := reconcile env fuel key m
      (r.trace, r.err)

/-- What `processNextWorkItem` (machine_controller.go lines 165-181) does
with the key after `syncMachine` returns: `Forget` on nil error, otherwise
`AddRateLimited` (requeue with backoff). -/
inductive QueueDecision where
  | forget (key : String)
  | addRateLimited (key : String)
deriving DecidableEq, Repr

/-- Queue handling of a sync result in `processNextWorkItem`. -/
def processDecision (key : String) (err : Option String) : QueueDecision :=
  match err with
  | none => QueueDecision.forget key
  | some _ => QueueDecision.addRateLimited key

/-- Transcription of `needsUpdate` (machine_controller.go lines 117-123):
`reflect.DeepEqual` on the two specs, negated. -/
def needsUpdate (oldMachine newMachine : Machine) : Bool :=
  decide (¬ oldMachine.spec = newMachine.spec)

/-- Transcription of `enqueue`s key derivation
(`cache.DeletionHandlingMetaNamespaceKeyFunc`): machines are cluster-scoped,
so the key is the machine name. -/
def machineKey (m : Machine) : String := m.name

/-- Transcription of `updateMachine` (machine_controller.go lines 107-115):
the key handed to `queue.Add`, or `none` when `needsUpdate` says the spec is
unchanged. -/
def updateMachine (oldMachine newMachine : Machine) : Option String :=
  if needsUpdate oldMachine newMachine then some (machineKey newMachine) else none

/-- State of the health scheduler: the Health-Watch Registry (`healthCache`,
a `mapset.Set`) and the list of keys for which a periodic task
(`go wait.PollImmediateInfinite(...)`) has been launched, one entry per
launch. -/
structure SchedulerState where
  registry : List String
  started : List String
deriving DecidableEq, Repr

/-- Transcription of `ensureStartHealthCheck` (machine_controller.go lines
279-288): no-op when the key is already in `healthCache`, otherwise launch
the periodic task and add the key. -/
def ensureStartHealthCheck (s : SchedulerState) (key : String) : SchedulerState :=
  if key ∈ s.registry then s
  else { registry := key :: s.registry, started := s.started ++ [key] }

/-- Removal from the `mapset.Set` registry. -/
def setRemove (s : List String) (key : String) : List String :=
  s.filter (fun k => k != key)

/-- Transcription of one tick of the closure returned by `watchHealth`
(machine_controller.go lines 290-315). Returns the `done` flag handed to
`wait.PollImmediateInfinite` (the loop stops exactly when it is true) and
the registry after the tick. A not-found lookup removes the key and stops;
any other lookup error, a phase outside Running/Failed, and any
`checkHealth` error all keep the loop running with the registry unchanged. -/
def watchHealthTick (registry : List String) (key : String) (lookup : LookupResult)
    (probe : ProbeOutcome) (getPatchBytesErr patchApplyErr : Option String) :
    Bool × List String :=
  match lookup with
  | .notFound _ => (true, setRemove registry key)
  | .otherErr _ => (false, registry)
  | .found m =>
    if m.status.phase = MachineRunning ∨ m.status.phase = MachineFailed then
      let _ := checkHealth m probe getPatchBytesErr patchApplyErr
      (false, registry)
    else
      (false, registry)

/-- Environment in which every collaborator succeeds and the hooks leave the
machine untouched. -/
def envTrivial : Env :=
  { getProviderErr := none
    getClusterErr := none
    onCreateHook := fun m => (m, none)
    onUpdateHook := fun m => (m, none)
    updateErr := fun _ => none
    deleteErr := none }

/-- Environment whose `OnCreate` hook moves the machine to Running but
returns an error, while the remote `Update` succeeds. -/
def envHookErr : Env :=
  { getProviderErr := none
    getClusterErr := none
    onCreateHook := fun m =>
      ({ m with status := { m.status with phase := MachineRunning } }, some "hook failed")
    onUpdateHook := fun m => (m, none)
    updateErr := fun _ => none
    deleteErr := none }

/-- A machine in phase Initializing. -/
def mInit : Machine :=
  { name := "m1"
    spec := { specType := "dummy", clusterName := "c1", ip := "10.0.0.1" }
    status := { phase := MachineInitializing, conditions := [] } }

/-- A machine in phase Running. -/
def mRun : Machine :=
  { name := "m2"
    spec := { specType := "dummy", clusterName := "c1", ip := "10.0.0.2" }
    status := { phase := MachineRunning, conditions := [] } }

/-- C1. The spec says an absent snapshot is a completed no-op returning no
error, and the source logs "Machine has been deleted" at that point — but the
following `if err != nil` still returns the not-found error, so
`processNextWorkItem` requeues the key with backoff. This theorem evaluates
the embedded `syncMachine` at a not-found lookup: the error comes back and the
queue decision is `addRateLimited`, contradicting the claim. -/
theorem syncMachine_notFound_returns_error :
    syncMachine envTrivial 1 (fun _ => LookupResult.notFound "machine m1 not found") "m1"
      = ([], some "machine m1 not found")
    ∧ processDecision "m1"
        (syncMachine envTrivial 1
          (fun _ => LookupResult.notFound "machine m1 not found") "m1").2
      = QueueDecision.addRateLimited "m1" := by
  exact ⟨rfl, rfl⟩

/-- C2. In the `Initializing` loop the source assigns
`err = provider.OnCreate(...)` and immediately overwrites it with
`_, err = ...Update(...)`, so a hook error with a successful remote update is
swallowed: here `OnCreate` returns the error "hook failed" (and moves the
phase to Running), yet `onCreate` finishes the pass with no error, never
surfacing the hook error, contrary to the claim and the source's own comment. -/
theorem onCreate_swallows_hook_error :
    (onCreate envHookErr 5 mInit).err = none
    ∧ (onCreate envHookErr 5 mInit).fuelOut = false
    ∧ (envHookErr.onCreateHook mInit).2 = some "hook failed" := by
  exact ⟨rfl, rfl, rfl⟩

/-- After `setConditionList`, looking the condition type up finds exactly the
inserted condition. -/
lemma find_setConditionList (l : List MachineCondition) (c : MachineCondition) :
    (setConditionList l c).find? (fun c0 => c0.condType == c.condType) = some c := by
  induction l with
  | nil => simp [setConditionList]
  | cons a l ih =>
    by_cases h : a.condType = c.condType
    · simp [setConditionList, h]
    · simp [setConditionList, h, List.find?, ih]

/-- `Machine.setCondition` followed by `Machine.getCondition` on the same
type yields the condition just set. -/
lemma getCondition_setCondition (m : Machine) (c : MachineCondition) :
    (m.setCondition c).getCondition c.condType = some c := by
  simp [Machine.setCondition, Machine.getCondition, find_setConditionList]

/-- C3: every `checkHealth` probe on a machine in phase Running or Failed
sets phase Failed and a false HealthCheck condition carrying the error's
message when the client build or the node fetch fails, and phase Running with
a true HealthCheck condition when the fetch succeeds. -/
theorem checkHealth_phase_and_condition (m : Machine) (probe : ProbeOutcome)
    (pbErr apErr : Option String)
    (_hphase : m.status.phase = MachineRunning ∨ m.status.phase = MachineFailed) :
    (match probe with
     | .buildErr msg =>
       (checkHealth m probe pbErr apErr).1.status.phase = MachineFailed ∧
       (checkHealth m probe pbErr apErr).1.getCondition conditionTypeHealthCheck =
         some { condType := conditionTypeHealthCheck, status := ConditionFalse,
                reason := failedHealthCheckReason, message := msg }
     | .fetchErr msg =>
       (checkHealth m probe pbErr apErr).1.status.phase = MachineFailed ∧
       (checkHealth m probe pbErr apErr).1.getCondition conditionTypeHealthCheck =
         some { condType := conditionTypeHealthCheck, status := ConditionFalse,
                reason := failedHealthCheckReason, message := msg }
     | .nodeOk =>
       (checkHealth m probe pbErr apErr).1.status.phase = MachineRunning ∧
       (checkHealth m probe pbErr apErr).1.getCondition conditionTypeHealthCheck =
         some { condType := conditionTypeHealthCheck, status := ConditionTrue,
                reason := "", message := "" }) := by
  have hset := fun (m1 : Machine) (c : MachineCondition) => getCondition_setCondition m1 c
  cases probe with
  | buildErr msg =>
    refine ⟨?_, ?_⟩
    · cases pbErr <;> cases apErr <;>
        simp [checkHealth, Machine.setCondition]
    · cases pbErr <;> cases apErr <;>
        simpa [checkHealth] using
          hset { m with status := { m.status with phase := MachineFailed } }
            { condType := conditionTypeHealthCheck, status := ConditionFalse,
              reason := failedHealthCheckReason, message := msg }
  | fetchErr msg =>
    refine ⟨?_, ?_⟩
    · cases pbErr <;> cases apErr <;>
        simp [checkHealth, Machine.setCondition]
    · cases pbErr <;> cases apErr <;>
        simpa [checkHealth] using
          hset { m with status := { m.status with phase := MachineFailed } }
            { condType := conditionTypeHealthCheck, status := ConditionFalse,
              reason := failedHealthCheckReason, message := msg }
  | nodeOk =>
    refine ⟨?_, ?_⟩
    · cases pbErr <;> cases apErr <;>
        simp [checkHealth, Machine.setCondition]
    · cases pbErr <;> cases apErr <;>
        simpa [checkHealth] using
          hset { m with status := { m.status with phase := MachineRunning } }
            { condType := conditionTypeHealthCheck, status := ConditionTrue,
              reason := "", message := "" }

/-- C3 witness: the failed-probe branch of `checkHealth_phase_and_condition`
at a concrete Running machine and a concrete node-fetch error. -/
theorem checkHealth_phase_and_condition_witness :
    (mRun.status.phase = MachineRunning ∨ mRun.status.phase = MachineFailed)
    ∧ ((checkHealth mRun (ProbeOutcome.fetchErr "node gone") none none).1.status.phase
          = MachineFailed
       ∧ (checkHealth mRun (ProbeOutcome.fetchErr "node gone") none none).1.getCondition
            conditionTypeHealthCheck
          = some { condType := conditionTypeHealthCheck, status := ConditionFalse,
                   reason := failedHealthCheckReason, message := "node gone" }) :=
  ⟨Or.inl rfl,
   checkHealth_phase_and_condition mRun (ProbeOutcome.fetchErr "node gone") none none
     (Or.inl rfl)⟩

/-- C9: every phase `checkHealth` writes is Running or Failed, never
Terminating; `checkHealth` is the only place the controller itself assigns
`machine.Status.Phase`. -/
theorem checkHealth_never_writes_terminating (m : Machine) (probe : ProbeOutcome)
    (pbErr apErr : Option String) :
    ((checkHealth m probe pbErr apErr).1.status.phase = MachineRunning
      ∨ (checkHealth m probe pbErr apErr).1.status.phase = MachineFailed)
    ∧ (checkHealth m probe pbErr apErr).1.status.phase ≠ MachineTerminating := by
  cases probe <;> cases pbErr <;> cases apErr <;>
    simp [checkHealth, Machine.setCondition, MachineRunning, MachineFailed,
      MachineTerminating]

/-- C4: reconciling a machine whose observed phase is Terminating calls only
the deleter's `Delete(key)` — no provisioning hook and no health-loop start. -/
theorem reconcile_terminating_only_deletes (env : Env) (fuel : Nat) (key : String)
    (m : Machine) (h : m.status.phase = MachineTerminating) :
    (reconcile env fuel key m).trace = [Action.deleterDelete key]
    ∧ Action.hookOnCreate ∉ (reconcile env fuel key m).trace
    ∧ Action.hookOnUpdate ∉ (reconcile env fuel key m).trace
    ∧ ∀ k, Action.ensureHealthCheck k ∉ (reconcile env fuel key m).trace := by
  have ht : (reconcile env fuel key m).trace = [Action.deleterDelete key] := by
    rw [reconcile, if_neg (by rw [h]; decide), if_neg (by rw [h]; decide),
      if_pos h]
  refine ⟨ht, ?_, ?_, ?_⟩
  · rw [ht]; simp
  · rw [ht]; simp
  · intro k; rw [ht]; simp

/-- C4 witness: a concrete Terminating machine. -/
theorem reconcile_terminating_only_deletes_witness :
    ({ mRun with status := { phase := MachineTerminating, conditions := [] }
       : Machine }).status.phase = MachineTerminating
    ∧ (reconcile envTrivial 1 "m2"
        { mRun with status := { phase := MachineTerminating, conditions := [] } }).trace
      = [Action.deleterDelete "m2"] :=
  ⟨rfl,
   (reconcile_terminating_only_deletes envTrivial 1 "m2"
     { mRun with status := { phase := MachineTerminating, conditions := [] } } rfl).1⟩

/-- C5: reconciling a machine whose phase is none of Initializing, Running,
Failed, Terminating returns no error, performs no collaborator call, and
leaves the machine untouched. -/
theorem reconcile_unknown_phase_noop (env : Env) (fuel : Nat) (key : String)
    (m : Machine)
    (h1 : m.status.phase ≠ MachineInitializing)
    (h2 : m.status.phase ≠ MachineRunning)
    (h3 : m.status.phase ≠ MachineFailed)
    (h4 : m.status.phase ≠ MachineTerminating) :
    reconcile env fuel key m
      = { trace := [], err := none, machine := m, fuelOut := false } := by
  rw [reconcile, if_neg h1, if_neg (by simp [h2, h3]), if_neg h4]

/-- C5 witness: a concrete machine in the unrecognized phase "Upgrading". -/
theorem reconcile_unknown_phase_noop_witness :
    reconcile envTrivial 1 "m2"
        { mRun with status := { phase := "Upgrading", conditions := [] } }
      = { trace := [], err := none,
          machine := { mRun with status := { phase := "Upgrading", conditions := [] } },
          fuelOut := false } :=
  reconcile_unknown_phase_noop envTrivial 1 "m2"
    { mRun with status := { phase := "Upgrading", conditions := [] } }
    (by decide) (by decide) (by decide) (by decide)

/-- Whatever the collaborator outcomes, `onUpdate` records the health-loop
start for the machine's key before anything else. -/
lemma onUpdate_trace_head (env : Env) (m : Machine) :
    (onUpdate env m).trace.head? = some (Action.ensureHealthCheck m.name) := by
  rw [onUpdate]
  cases env.getProviderErr with
  | some e => rfl
  | none =>
    cases env.getClusterErr with
    | some e => rfl
    | none =>
      cases henv : env.updateErr (env.onUpdateHook m).1 with
      | some e => simp [henv]
      | none => simp [henv]

/-- C10: for a machine in phase Running or Failed, the first collaborator
call of the reconciliation is `ensureStartHealthCheck` on the machine's key,
so the health loop is ensured even when provider resolution, cluster lookup,
the update hook, or the remote update fails. -/
theorem reconcile_stable_ensures_health_first (env : Env) (fuel : Nat) (key : String)
    (m : Machine)
    (h : m.status.phase = MachineRunning ∨ m.status.phase = MachineFailed) :
    (reconcile env fuel key m).trace.head? = some (Action.ensureHealthCheck m.name) := by
  have hni : ¬ m.status.phase = MachineInitializing := by
    rcases h with h | h <;> rw [h] <;> decide
  rw [reconcile, if_neg hni, if_pos h]
  exact onUpdate_trace_head env m

/-- C10 witness: a concrete Running machine in an environment whose provider
resolution fails. -/
theorem reconcile_stable_ensures_health_first_witness :
    (reconcile { envTrivial with getProviderErr := some "unknown machine type" }
        1 "m2" mRun).trace.head?
      = some (Action.ensureHealthCheck "m2") :=
  reconcile_stable_ensures_health_first
    { envTrivial with getProviderErr := some "unknown machine type" }
    1 "m2" mRun (Or.inl rfl)

/-- C6: a health tick signals loop termination exactly when the lookup is
not-found, and then the key leaves the registry; on any other outcome (other
lookup error, phase outside Running and Failed, probe or patch failure) the
loop keeps running and the registry is unchanged. -/
theorem watchHealthTick_stops_iff_notFound (registry : List String) (key : String)
    (lookup : LookupResult) (probe : ProbeOutcome) (pbErr apErr : Option String) :
    ((watchHealthTick registry key lookup probe pbErr apErr).1 = true
      ↔ ∃ msg, lookup = LookupResult.notFound msg)
    ∧ ((watchHealthTick registry key lookup probe pbErr apErr).1 = true
        → key ∉ (watchHealthTick registry key lookup probe pbErr apErr).2)
    ∧ ((watchHealthTick registry key lookup probe pbErr apErr).1 = false
        → (watchHealthTick registry key lookup probe pbErr apErr).2 = registry) := by
  cases lookup with
  | notFound msg =>
    refine ⟨by simp [watchHealthTick], ?_, by simp [watchHealthTick]⟩
    intro _
    simp [watchHealthTick, setRemove, List.mem_filter]
  | otherErr msg => simp [watchHealthTick]
  | found m =>
    by_cases h : m.status.phase = MachineRunning ∨ m.status.phase = MachineFailed
    · simp [watchHealthTick, h]
    · simp [watchHealthTick, h]

/-- C6 witness: a not-found tick for a registered key reports done and leaves
the registry without the key. -/
theorem watchHealthTick_stops_iff_notFound_witness :
    (watchHealthTick ["m1"] "m1" (LookupResult.notFound "machine gone")
        ProbeOutcome.nodeOk none none).1 = true
    ∧ "m1" ∉ (watchHealthTick ["m1"] "m1" (LookupResult.notFound "machine gone")
        ProbeOutcome.nodeOk none none).2 := by
  have h := watchHealthTick_stops_iff_notFound ["m1"] "m1"
    (LookupResult.notFound "machine gone") ProbeOutcome.nodeOk none none
  have h1 := h.1.mpr ⟨"machine gone", rfl⟩
  exact ⟨h1, h.2.1 h1⟩

/-- C7: an update notification enqueues the machine's key exactly when the
new spec differs from the old spec; a status-only change enqueues nothing. -/
theorem updateMachine_enqueues_iff_spec_changed (oldMachine newMachine : Machine) :
    (oldMachine.spec ≠ newMachine.spec
      → updateMachine oldMachine newMachine = some (machineKey newMachine))
    ∧ (oldMachine.spec = newMachine.spec
      → updateMachine oldMachine newMachine = none) := by
  constructor
  · intro h; simp [updateMachine, needsUpdate, h]
  · intro h; simp [updateMachine, needsUpdate, h]

/-- C7 witness: a status-only change of `mRun` enqueues nothing, while a spec
change (to `mInit`'s spec) enqueues the key. -/
theorem updateMachine_enqueues_iff_spec_changed_witness :
    updateMachine mRun
        { mRun with status := { phase := MachineFailed, conditions := [] } } = none
    ∧ updateMachine mRun mInit = some "m1" :=
  ⟨(updateMachine_enqueues_iff_spec_changed mRun
      { mRun with status := { phase := MachineFailed, conditions := [] } }).2 rfl,
   (updateMachine_enqueues_iff_spec_changed mRun mInit).1 (by decide)⟩

/-- C8: `ensureStartHealthCheck` is idempotent per key — a second sequential
call is a no-op because the key is already in the registry, so exactly one
periodic task is started for the key. -/
theorem ensureStartHealthCheck_idempotent (s : SchedulerState) (key : String) :
    ensureStartHealthCheck (ensureStartHealthCheck s key) key
      = ensureStartHealthCheck s key
    ∧ (key ∉ s.registry → s.started.count key = 0
        → (ensureStartHealthCheck (ensureStartHealthCheck s key) key).started.count key
            = 1) := by
  by_cases h : key ∈ s.registry
  · exact ⟨by simp [ensureStartHealthCheck, h], fun hk _ => absurd h hk⟩
  · have h1 : ensureStartHealthCheck s key
        = { registry := key :: s.registry, started := s.started ++ [key] } := by
      simp [ensureStartHealthCheck, h]
    have h2 : ensureStartHealthCheck (ensureStartHealthCheck s key) key
        = ensureStartHealthCheck s key := by
      rw [h1]; simp [ensureStartHealthCheck]
    refine ⟨h2, fun _ hc => ?_⟩
    rw [h2, h1]
    simp [List.count_append, hc]

/-- C8 witness: from an empty scheduler, two sequential calls for the same
key leave exactly one started task. -/
theorem ensureStartHealthCheck_idempotent_witness :
    (ensureStartHealthCheck
        (ensureStartHealthCheck { registry := [], started := [] } "m1") "m1").started.count
        "m1" = 1 :=
  (ensureStartHealthCheck_idempotent { registry := [], started := [] } "m1").2
    (by simp) rfl

end Tke
